import Mathlib

/-
Verification development for sirbot-pyslackers, module
`endpoints/slack/messages.py`.

The module is a set of async Slack message handlers plus a registration
function `create_endpoints` that binds regex patterns (with mention / admin /
subtype / wait flags) to the handlers.  We shallow-embed each handler as a
pure Lean function from the incoming message and the outcomes of its
collaborator calls (quote API, chat API, database) to an explicit record of
its observable effects: the message as left behind by the handler, the log
events it emits, the request it posts, and the Python exception (if any)
that propagates out of the handler body.

External collaborator behaviour (the sirbot dispatcher, the uniqueness
constraint of the messages table, the mention flag) is not part of src and
is modelled from the spec where needed; such definitions carry a
`Modelled from the spec:` doc comment.

Floating-point quote fields and their string formatting in the attachment
bodies are presentation-only and are not modelled; an attachment is
represented by the collaborator record it is rendered from.
-/

namespace Sirbot

/-- One Slack message event, as the handlers see it.  `text` is optional
(`message.get("text", ...)` vs `message["text"]`); `mentionsBot` is the
mention flag.  Modelled from the spec: the `MentionRequired` predicate
consumes a boolean flag precomputed by the transport collaborator, not raw
text parsing. -/
structure Msg where
  text : Option String := none
  user : String := ""
  channel : String := ""
  ts : String := ""
  topic : Option String := none
  subtype : Option String := none
  mentionsBot : Bool := false
deriving DecidableEq

/-- Process-wide bot identity: own user id and admin set (the slack
plugin's `bot_user_id` and `admins`). -/
structure BotIdentity where
  botUserId : String
  admins : List String
deriving DecidableEq

/-- A log record emitted through `LOG.debug` / `LOG.error`. -/
inductive LogEvent
  | debug (text : String)
  | error (text : String)
deriving DecidableEq

/-- `aiohttp.ClientResponseError`, as far as the handlers inspect it. -/
structure ClientResponseError where
  status : Nat
deriving DecidableEq

/-- A Python exception escaping a handler body. `slackAPI code` is a
`SlackAPIError` carrying its `error` code string.  `overflowError`
stands for the range error of an out-of-range
`datetime.fromtimestamp` conversion: CPython raises `ValueError` when the
converted year falls outside 1–9999 and `OverflowError` beyond the
platform `time_t`; the handlers catch neither, so the two are modelled by
this one constructor. -/
inductive PyErr
  | unboundLocal (name : String)
  | keyError (key : String)
  | indexError
  | valueError
  | overflowError
  | slackAPI (code : String)
deriving DecidableEq

/- ---------------------------------------------------------------- -/
/- Character and pattern helpers (the compiled regexes of the file). -/
/- ---------------------------------------------------------------- -/

/-- ASCII lower-casing by code point, used for `re.IGNORECASE` matching. -/
def lowerN (c : Char) : Nat :=
  if 65 ≤ c.toNat ∧ c.toNat ≤ 90 then c.toNat + 32 else c.toNat

/-- Case-sensitive character comparison. -/
def charEq (a b : Char) : Bool := a == b

/-- Case-insensitive (ASCII) character comparison. -/
def charEqCI (a b : Char) : Bool := lowerN a == lowerN b

/-- Does `pat` occur at the head of the text, character-wise under `eq`? -/
def matchHeadBy (eq : Char → Char → Bool) : List Char → List Char → Bool
  | [], _ => true
  | _ :: _, [] => false
  | p :: ps, c :: cs => eq p c && matchHeadBy eq ps cs

/-- Does `pat` occur anywhere in the text (leftmost search, like
`re.search` of a plain literal pattern)? -/
def containsSeqBy (eq : Char → Char → Bool) (pat : List Char) : List Char → Bool
  | [] => matchHeadBy eq pat []
  | c :: cs => matchHeadBy eq pat (c :: cs) || containsSeqBy eq pat cs

/-- Registration pattern `"hello"` with `re.IGNORECASE` (searched). -/
def patHello (t : String) : Bool := containsSeqBy charEqCI ("hello".data) t.data

/-- Registration pattern `"^tell"` with `re.IGNORECASE` (anchored). -/
def patTellRule (t : String) : Bool := matchHeadBy charEqCI ("tell".data) t.data

/-- Registration pattern `".*"`: matches any text. -/
def patAny (_ : String) : Bool := true

/-- Registration pattern `"g#"` (searched, case-sensitive). -/
def patGithub (t : String) : Bool := containsSeqBy charEq ("g#".data) t.data

/-- Registration pattern `"^inspect"` with `re.IGNORECASE`. -/
def patInspectRule (t : String) : Bool := matchHeadBy charEqCI ("inspect".data) t.data

/-- Registration pattern `"^help"` with `re.IGNORECASE`. -/
def patHelpRule (t : String) : Bool := matchHeadBy charEqCI ("help".data) t.data

/-- The character class `[A-Z.]` of the ticker patterns. -/
def isStockChar (c : Char) : Bool := (65 ≤ c.toNat && c.toNat ≤ 90) || c == '.'

/-- Search for `lead` followed by `'$'` followed by at least one `[A-Z.]`
character: the semantics of the registration patterns
`s\$[A-Z\.]{1,5}` and `c\$[A-Z\.]{1,5}` under `re.search`. -/
def patTicker (lead : Char) : List Char → Bool
  | a :: b :: c :: rest => (a == lead && b == '$' && isStockChar c) || patTicker lead (b :: c :: rest)
  | _ => false

/-- Registration pattern `s\$[A-Z\.]{1,5}`. -/
def patStock (t : String) : Bool := patTicker 's' t.data

/-- Registration pattern `c\$[A-Z\.]{1,5}`. -/
def patCrypto (t : String) : Bool := patTicker 'c' t.data

/-- `\w` for the ASCII inputs in play (`re` word character). -/
def wordChar (c : Char) : Bool :=
  (65 ≤ c.toNat && c.toNat ≤ 90) || (97 ≤ c.toNat && c.toNat ≤ 122) ||
  (48 ≤ c.toNat && c.toNat ≤ 57) || c == '_'

/-- The trailing `\b` of `STOCK_REGEX`: a word boundary between the last
consumed symbol character and what follows (end of input is non-word). -/
def boundaryAfter (last : Char) : List Char → Bool
  | [] => wordChar last
  | d :: _ => wordChar last != wordChar d

/-- Greedy-with-backtracking `[A-Z.]{1,5}` of `STOCK_REGEX`, tried at the
position just after a `'$'`: lengths are tried longest first; the leading
`\b` (after the non-word `'$'`) demands a word first character, the
trailing `\b` is `boundaryAfter`. -/
def tryLen (s : List Char) : Nat → Option (List Char)
  | 0 => none
  | Nat.succ k =>
      match s.take (k + 1) with
      | [] => tryLen s k
      | c0 :: rest =>
          if (c0 :: rest).length == k + 1 && (c0 :: rest).all isStockChar
              && wordChar c0 && boundaryAfter ((c0 :: rest).getLastD c0) (s.drop (k + 1)) then
            some (c0 :: rest)
          else tryLen s k

/-- `STOCK_REGEX.search`: `re.compile(r'\$\b(?P<symbol>[A-Z.]{1,5})\b')`
searched left to right; returns the captured `symbol` group. -/
def stockSearch : List Char → Option String
  | [] => none
  | c :: cs =>
      if c == '$' then
        match tryLen cs 5 with
        | some sym => some (String.mk sym)
        | none => stockSearch cs
      else stockSearch cs

/- ------------------------------------------------ -/
/- crypto_quote                                      -/
/- ------------------------------------------------ -/

/-- One record of the crypto listing returned by `stocks.crypto()`.  Only
the fields the handler logic branches on are carried; numeric price fields
are floating point and feed string formatting only. -/
structure CryptoPair where
  symbol : String
  companyName : String := ""
  change : Option Int := none
deriving DecidableEq

/-- The `for c in crypto: if c["symbol"] == f"{symbol}USDT": quote = c;
break` loop of `crypto_quote`. -/
def cryptoLookup (symbol : String) : List CryptoPair → Option CryptoPair
  | [] => none
  | c :: rest => if c.symbol == symbol ++ "USDT" then some c else cryptoLookup symbol rest

/-- The message `crypto_quote` posts via `CHAT_POST_MESSAGE`: the response
draft's channel, its `text` field if assigned, and the quote record its
attachment is rendered from (if any). -/
structure CryptoResponse where
  channel : String
  text : Option String := none
  attachmentOf : Option CryptoPair := none
deriving DecidableEq

/-- Observable outcome of one `crypto_quote` invocation. -/
structure CryptoOut where
  msgAfter : Msg
  logs : List LogEvent
  posted : Option CryptoResponse
  raised : Option PyErr
deriving DecidableEq

/-- `crypto_quote(message, app)`.  `cryptoResult` is the outcome of the
`stocks.crypto()` collaborator call.  Note: in the source, `quote = None`
sits inside the `try` after that call, so when the call raises
`ClientResponseError` the subsequent `if quote is not None:` reads an
unassigned local and an `UnboundLocalError` escapes the handler. -/
def crypto_quote (m : Msg) (cryptoResult : Except ClientResponseError (List CryptoPair)) : CryptoOut :=
  match stockSearch (m.text.getD "").data with
  | none => { msgAfter := m, logs := [], posted := none, raised := none }
  | some symbol =>
    match cryptoResult with
    | Except.error _ =>
        { msgAfter := m
          logs := [LogEvent.debug ("Fetching crypto quotes for symbol " ++ symbol),
                   LogEvent.error "Error retrieving crypto quotes"]
          posted := none
          raised := some (PyErr.unboundLocal "quote") }
    | Except.ok listing =>
        match cryptoLookup symbol listing with
        | none =>
            { msgAfter := m
              logs := [LogEvent.debug ("Fetching crypto quotes for symbol " ++ symbol),
                       LogEvent.debug ("No crypto currencies found when searching for: " ++ symbol),
                       LogEvent.debug "Crypto quote from IEX API"]
              posted := some { channel := m.channel
                               text := some ("The crypto symbol `" ++ symbol ++ "` could not be found") }
              raised := none }
        | some q =>
            { msgAfter := m
              logs := [LogEvent.debug ("Fetching crypto quotes for symbol " ++ symbol),
                       LogEvent.debug "Crypto quote from IEX API"]
              posted := some { channel := m.channel, attachmentOf := some q }
              raised := none }

/- ------------------------------------------------ -/
/- stock_quote                                       -/
/- ------------------------------------------------ -/

/-- The `"quote"` record of `stocks.book(symbol)`; as with `CryptoPair`,
only fields the control flow inspects are carried. -/
structure StockQuote where
  symbol : String
  companyName : String := ""
  change : Option Int := none
deriving DecidableEq

/-- The message `stock_quote` posts: channel, assigned `text`, and the
(quote, logo url) pair its attachment is rendered from. -/
structure StockResponse where
  channel : String
  text : Option String := none
  attachmentOf : Option (StockQuote × String) := none
deriving DecidableEq

/-- Observable outcome of one `stock_quote` invocation. -/
structure StockOut where
  msgAfter : Msg
  logs : List LogEvent
  posted : Option StockResponse
  raised : Option PyErr
deriving DecidableEq

/-- `stock_quote(message, app)`.  `bookResult` / `logoResult` are the
outcomes of `stocks.book(symbol)` and `stocks.logo(symbol)`, awaited in
that order inside one `try` whose `except ClientResponseError` branches on
`e.status == 404`. -/
def stock_quote (m : Msg) (bookResult : Except ClientResponseError StockQuote)
    (logoResult : Except ClientResponseError String) : StockOut :=
  match stockSearch (m.text.getD "").data with
  | none => { msgAfter := m, logs := [], posted := none, raised := none }
  | some symbol =>
    match bookResult with
    | Except.error e =>
        if e.status == 404 then
          { msgAfter := m
            logs := [LogEvent.debug ("Fetching stock quotes for symbol " ++ symbol)]
            posted := some { channel := m.channel
                             text := some ("The symbol `" ++ symbol ++ "` could not be found.") }
            raised := none }
        else
          { msgAfter := m
            logs := [LogEvent.debug ("Fetching stock quotes for symbol " ++ symbol),
                     LogEvent.error "Error retrieving stock quotes"]
            posted := some { channel := m.channel
                             text := some "Unable to retrieve quotes right now." }
            raised := none }
    | Except.ok q =>
      match logoResult with
      | Except.error e =>
          if e.status == 404 then
            { msgAfter := m
              logs := [LogEvent.debug ("Fetching stock quotes for symbol " ++ symbol)]
              posted := some { channel := m.channel
                               text := some ("The symbol `" ++ symbol ++ "` could not be found.") }
              raised := none }
          else
            { msgAfter := m
              logs := [LogEvent.debug ("Fetching stock quotes for symbol " ++ symbol),
                       LogEvent.error "Error retrieving stock quotes"]
              posted := some { channel := m.channel
                               text := some "Unable to retrieve quotes right now." }
              raised := none }
      | Except.ok url =>
          { msgAfter := m
            logs := [LogEvent.debug ("Fetching stock quotes for symbol " ++ symbol),
                     LogEvent.debug "Quote from IEX API"]
            posted := some { channel := m.channel, attachmentOf := some (q, url) }
            raised := none }

/- ------------------------------------------------ -/
/- hello, help_message                               -/
/- ------------------------------------------------ -/

/-- A posted response carrying only channel and text. -/
structure SimplePost where
  channel : String
  text : String
deriving DecidableEq

/-- Observable outcome of handlers that post at most one simple text
response. -/
structure SimpleOut where
  msgAfter : Msg
  posted : Option SimplePost
  raised : Option PyErr
deriving DecidableEq

/-- `hello(message, app)`: replies "Hello <@user>" in the same channel. -/
def hello (m : Msg) : SimpleOut :=
  { msgAfter := m
    posted := some { channel := m.channel, text := "Hello <@" ++ m.user ++ ">" }
    raised := none }

/-- `help_message`'s posted response: text plus the help fields imported
from the `utils` module (outside src), passed in as `fields`. -/
structure HelpPost where
  channel : String
  text : String
  fields : List (String × String)
deriving DecidableEq

/-- Observable outcome of `help_message`. -/
structure HelpOut where
  msgAfter : Msg
  posted : Option HelpPost
  raised : Option PyErr
deriving DecidableEq

/-- `help_message(message, app)`; `helpFields` stands for the
`HELP_FIELD_DESCRIPTIONS` constant imported from `utils` (not in src). -/
def help_message (helpFields : List (String × String)) (m : Msg) : HelpOut :=
  { msgAfter := m
    posted := some { channel := m.channel, text := "Sir Bot-a-lot help", fields := helpFields }
    raised := none }

/- ------------------------------------------------ -/
/- tell                                              -/
/- ------------------------------------------------ -/

/-- The character class `[A-Z0-9]` of `TELL_REGEX`'s `to_id` group. -/
def idChar (c : Char) : Bool := (65 ≤ c.toNat && c.toNat ≤ 90) || (48 ≤ c.toNat && c.toNat ≤ 57)

/-- The maximal newline-free run (what a final greedy `.*` group
captures). -/
def takeNoNl (s : List Char) : List Char := s.takeWhile (fun c => !(c == '\n'))

/-- The `(|.*)?>` tail of `TELL_REGEX` when the empty alternative failed:
the `.*` alternative is greedy, so the engine commits to the **last**
position inside the newline-free region where `"> "` follows; the `msg`
group is the newline-free run after that.  Deeper recursion is preferred,
which realises longest-first backtracking. -/
def tellGap : List Char → Option String
  | [] => none
  | c :: cs =>
      if c == '\n' then none
      else
        match tellGap cs with
        | some r => some r
        | none =>
            match c, cs with
            | '>', ' ' :: rest => some (String.mk (takeNoNl rest))
            | _, _ => none

/-- After the `to_id` run of `TELL_REGEX`: the group `(|.*)?` tries the
empty alternative first (so `"> "` immediately), then falls back to
`tellGap`. -/
def tellAfterId (s : List Char) : Option String :=
  match s with
  | '>' :: ' ' :: rest => some (String.mk (takeNoNl rest))
  | _ => tellGap s

/-- `TELL_REGEX.match`: pattern
`tell (<(#|@)(?P<to_id>[A-Z0-9]*)(|.*)?>) (?P<msg>.*)`, anchored at the
start, case-sensitive (the regex is compiled without flags).  `to_id` is
the maximal `[A-Z0-9]` run after the sigil (shrinking it can never turn a
failure into a success because the freed characters contain neither `>`
nor a newline). Returns `(to_id, msg)` on success. -/
def tellMatch (t : List Char) : Option (String × String) :=
  match t with
  | 't' :: 'e' :: 'l' :: 'l' :: ' ' :: '<' :: sig :: rest =>
      if sig == '#' || sig == '@' then
        match tellAfterId (rest.dropWhile idChar) with
        | some msgText => some (String.mk (rest.takeWhile idChar), msgText)
        | none => none
      else none
  | _ => none

/-- Observable outcome of `tell`. -/
structure TellOut where
  msgAfter : Msg
  posted : Option SimplePost
  raised : Option PyErr
deriving DecidableEq

/-- `tell(message, app)`.  `message["text"]` is read unconditionally, so a
message without text raises `KeyError`.  On a match the destination must
start with `C` or `U`; otherwise an apology is posted. -/
def tell (m : Msg) : TellOut :=
  match m.text with
  | none => { msgAfter := m, posted := none, raised := some (PyErr.keyError "text") }
  | some t =>
      match tellMatch t.data with
      | some (toId, msgText) =>
          match toId.data with
          | c :: _ =>
              if c == 'C' || c == 'U' then
                { msgAfter := m, posted := some { channel := toId, text := msgText }, raised := none }
              else
                { msgAfter := m
                  posted := some { channel := m.channel, text := "Sorry I can not understand the destination." }
                  raised := none }
          | [] =>
              { msgAfter := m
                posted := some { channel := m.channel, text := "Sorry I can not understand the destination." }
                raised := none }
      | none =>
          { msgAfter := m
            posted := some { channel := m.channel, text := "Sorry I can not understand" }
            raised := none }

/- ------------------------------------------------ -/
/- mention                                           -/
/- ------------------------------------------------ -/

/-- The data of one `REACTIONS_ADD` chat-API call. -/
structure ReactionCall where
  name : String
  channel : String
  timestamp : String
deriving DecidableEq

/-- Observable outcome of `mention`. -/
structure MentionOut where
  msgAfter : Msg
  reactionCall : Option ReactionCall
  raised : Option PyErr
deriving DecidableEq

/-- `mention(message, app)`.  `reactResult` is the outcome of the
`REACTIONS_ADD` call (its `SlackAPIError` code on failure); the handler
re-raises every code except `"already_reacted"`, and skips the call
entirely for the bot's own messages. -/
def mention (m : Msg) (iden : BotIdentity) (reactResult : Except String Unit) : MentionOut :=
  if m.user == iden.botUserId then
    { msgAfter := m, reactionCall := none, raised := none }
  else
    match reactResult with
    | Except.ok _ =>
        { msgAfter := m
          reactionCall := some { name := "sirbot", channel := m.channel, timestamp := m.ts }
          raised := none }
    | Except.error code =>
        { msgAfter := m
          reactionCall := some { name := "sirbot", channel := m.channel, timestamp := m.ts }
          raised := if code == "already_reacted" then none else some (PyErr.slackAPI code) }

/- ------------------------------------------------ -/
/- save_in_database                                  -/
/- ------------------------------------------------ -/

/-- Decimal digit accumulation for `pyInt`. -/
def digitsToNat : List Char → Nat → Option Nat
  | [], acc => some acc
  | c :: cs, acc =>
      if 48 ≤ c.toNat && c.toNat ≤ 57 then digitsToNat cs (acc * 10 + (c.toNat - 48))
      else none

/-- Python `int(s)` on a string: surrounding whitespace stripped, optional
sign, then decimal digits; anything else raises `ValueError` (`none`).
(Python also accepts `_` digit grouping; not modelled, no input here uses
it.) -/
def pyInt (s : String) : Option Int :=
  match (((s.data.dropWhile Char.isWhitespace).reverse.dropWhile Char.isWhitespace).reverse :
      List Char) with
  | [] => none
  | '-' :: ds =>
      match ds with
      | [] => none
      | _ => (digitsToNat ds 0).map (fun n => -(n : Int))
  | '+' :: ds =>
      match ds with
      | [] => none
      | _ => (digitsToNat ds 0).map (fun n => (n : Int))
  | ds => (digitsToNat ds 0).map (fun n => (n : Int))

/-- `ts.split(".")[0]`: the prefix before the first dot. -/
def intPart (ts : String) : String := String.mk (ts.data.takeWhile (fun c => !(c == '.')))

/-- The smallest epoch second `datetime.datetime.fromtimestamp` accepts
for a zero zone offset: `datetime.min` (year 1) is epoch second
-62135596800, and the naive-`fromtimestamp` fold detection probes one day
earlier, so conversion succeeds only from -62135596800 + 86400 on
(measured on CPython; below this bound `ValueError: year 0 is out of
range` is raised). -/
def minFromTs : Int := -62135510400

/-- The largest epoch second `datetime.datetime.fromtimestamp` accepts
for a zero zone offset: the last second of year 9999
(`datetime.max`, epoch second 253402300799); above it `ValueError`
(year 10000) or, far beyond the platform `time_t`, `OverflowError` is
raised. -/
def maxFromTs : Int := 253402300799

/-- One row of the `slack.messages` table (id = the message `ts`; the raw
payload column repeats the message and is not carried separately).
Modelled from the spec: the table is keyed by the message's timestamp-like
identifier, so inserting a duplicate id raises `UniqueViolationError`. -/
structure MsgRow where
  id : String
  text : Option String
  user : String
  channel : String
  time : Int
deriving DecidableEq

/-- Observable outcome of `save_in_database`: the table contents after the
call, the logs, and any escaping exception. -/
structure SaveOut where
  msgAfter : Msg
  db : List MsgRow
  logs : List LogEvent
  raised : Option PyErr
deriving DecidableEq

/-- `save_in_database(message, app)`.  `pgConfigured` is
`"pg" in app["plugins"]`; `tzOffset` is the local clock's UTC offset in
seconds, which the naive `datetime.fromtimestamp` conversion applies.
The debug "Saving message" log precedes the `if message["ts"]:` guard;
`datetime.fromtimestamp(int(ts.split(".")[0]))` is evaluated before the
INSERT, so a non-numeric leading component raises `ValueError` and a
numeric one outside datetime's representable window (years 1–9999,
shifted by the zone offset) raises the `fromtimestamp` range error —
neither is caught by the `except UniqueViolationError`; a duplicate id
makes the INSERT itself raise `UniqueViolationError`, caught and logged
at debug level. -/
def save_in_database (pgConfigured : Bool) (tzOffset : Int) (db : List MsgRow) (m : Msg) : SaveOut :=
  if pgConfigured then
    if m.ts == "" then
      { msgAfter := m, db := db
        logs := [LogEvent.debug ("Saving message \"" ++ m.ts ++ "\" to database.")]
        raised := none }
    else
      match pyInt (intPart m.ts) with
      | none =>
          { msgAfter := m, db := db
            logs := [LogEvent.debug ("Saving message \"" ++ m.ts ++ "\" to database.")]
            raised := some PyErr.valueError }
      | some n =>
          if minFromTs ≤ n + tzOffset ∧ n + tzOffset ≤ maxFromTs then
            if db.any (fun r => r.id == m.ts) then
              { msgAfter := m, db := db
                logs := [LogEvent.debug ("Saving message \"" ++ m.ts ++ "\" to database."),
                         LogEvent.debug ("Message \"" ++ m.ts ++ "\" already in database.")]
                raised := none }
            else
              { msgAfter := m
                db := db ++ [{ id := m.ts, text := m.text, user := m.user, channel := m.channel, time := n }]
                logs := [LogEvent.debug ("Saving message \"" ++ m.ts ++ "\" to database.")]
                raised := none }
          else
            { msgAfter := m, db := db
              logs := [LogEvent.debug ("Saving message \"" ++ m.ts ++ "\" to database.")]
              raised := some PyErr.overflowError }
  else { msgAfter := m, db := db, logs := [], raised := none }

/- ------------------------------------------------ -/
/- channel_topic                                     -/
/- ------------------------------------------------ -/

/-- Modelled from the spec: the admin-channel id constant imported from
the `utils` module (outside src); the handlers use it only as a channel
id, so its concrete value is irrelevant. -/
def ADMIN_CHANNEL : String := "ADMIN_CHANNEL_ID"

/-- One row of the `slack.channels` table as `channel_topic` reads it:
`channel["raw"]["topic"]["value"]`. -/
structure ChannelRow where
  topicValue : String
deriving DecidableEq

/-- One `{"title": ..., "value": ...}` entry of the notification
attachment's `fields`. -/
structure TopicField where
  title : String
  value : String
deriving DecidableEq

/-- The notification attachment built by `channel_topic`.  `hasActions`
records whether the `callback_id`/`actions` block (Validate and Revert
buttons) was attached; `revertPayload` is the
`{"channel": ..., "old_topic": ...}` payload of the Revert button (its
JSON rendering is not modelled). -/
structure TopicAttachment where
  fallback : String
  title : String
  fields : List TopicField
  hasActions : Bool
  revertPayload : Option (String × String)
deriving DecidableEq

/-- The message `channel_topic` posts. -/
structure TopicPost where
  channel : String
  attachment : TopicAttachment
deriving DecidableEq

/-- Observable outcome of `channel_topic`. -/
structure TopicOut where
  msgAfter : Msg
  posted : Option TopicPost
  raised : Option PyErr
deriving DecidableEq

/-- The `if channel: old_topic = ... else: "Original topic not found"`
branch of `channel_topic`. -/
def oldTopicOf (row : Option ChannelRow) : String :=
  match row with
  | some c => c.topicValue
  | none => "Original topic not found"

/-- `channel_topic(message, app)`.  `row` is the `slack.channels` row
fetched for the message's channel.  The handler acts only for users that
are neither admins nor the bot itself, and attaches the action buttons
exactly when a prior channel row existed. -/
def channel_topic (m : Msg) (iden : BotIdentity) (row : Option ChannelRow) : TopicOut :=
  if !(iden.admins.contains m.user) && !(m.user == iden.botUserId) then
    match m.topic with
    | none => { msgAfter := m, posted := none, raised := some (PyErr.keyError "topic") }
    | some newTopic =>
        { msgAfter := m
          posted := some
            { channel := ADMIN_CHANNEL
              attachment :=
                { fallback := "Channel topic changed notice: old topic"
                  title := "<@" ++ m.user ++ "> changed <#" ++ m.channel ++ "> topic."
                  fields := [{ title := "Previous topic", value := oldTopicOf row },
                             { title := "New topic", value := newTopic }]
                  hasActions := row.isSome
                  revertPayload := if row.isSome then some (m.channel, oldTopicOf row) else none } }
          raised := none }
  else { msgAfter := m, posted := none, raised := none }

/- ------------------------------------------------ -/
/- github_repo_link                                  -/
/- ------------------------------------------------ -/

/-- Python `text.count("g#")`: non-overlapping occurrences. -/
def countG : List Char → Nat
  | 'g' :: '#' :: rest => countG rest + 1
  | _ :: rest => countG rest
  | [] => 0

/-- Python `text.find("g#")`: index of the first occurrence, `-1` if
absent. -/
def findG : List Char → Int
  | 'g' :: '#' :: _ => 0
  | _ :: rest =>
      let r := findG rest
      if r == -1 then -1 else r + 1
  | [] => -1

/-- Worker for `pySplitWs`, accumulating the current word reversed. -/
def splitWsGo (cur : List Char) : List Char → List (List Char)
  | [] => if cur.isEmpty then [] else [cur.reverse]
  | c :: cs =>
      if Char.isWhitespace c then
        if cur.isEmpty then splitWsGo [] cs else cur.reverse :: splitWsGo [] cs
      else splitWsGo (c :: cur) cs

/-- Python `s.split()`: split on whitespace runs, dropping empties. -/
def pySplitWs (s : List Char) : List (List Char) := splitWsGo [] s

/-- Observable outcome of `github_repo_link`: the message as the handler
left it (its `text` is reassigned inside the loop), the GET requests
issued, the urls posted, and any escaping exception. -/
structure GithubOut where
  msgAfter : Msg
  requests : List String
  posts : List String
  raised : Option PyErr

/-- The body of `github_repo_link`'s `for i in range(0, count)` loop, one
fuel unit per iteration (the iteration count is fixed before the loop
mutates the text).  Each pass: `start = text.find("g#") + 2`,
`repo = text[start:].split()[0]` (IndexError when the split is empty,
aborting the handler), the text is cut to `text[(start+len(repo))+2:]`,
bare repos get the `pyslackers/` owner, and a GET that answers 200 makes
the url be posted. -/
def githubLoop (http : String → Nat) : Nat → List Char →
    List Char × List String × List String × Option PyErr
  | 0, text => (text, [], [], none)
  | Nat.succ n, text =>
      let start : Nat := (findG text + 2).toNat
      match pySplitWs (text.drop start) with
      | [] => (text, [], [], some PyErr.indexError)
      | repo0 :: _ =>
          let lenToRemove := start + repo0.length + 2
          let text2 := text.drop lenToRemove
          let repo := if repo0.contains '/' then repo0 else ("pyslackers/".data ++ repo0)
          let url := "https://github.com/" ++ String.mk repo
          let rest := githubLoop http n text2
          (rest.1, url :: rest.2.1, (if http url == 200 then [url] else []) ++ rest.2.2.1, rest.2.2.2)

/-- `github_repo_link(message, app)`.  `http url` is the status code the
outbound GET for `url` answers with.  Runs only when the message has
non-empty text, and reassigns `message["text"]` as it consumes `g#`
occurrences. -/
def github_repo_link (http : String → Nat) (m : Msg) : GithubOut :=
  match m.text with
  | none => { msgAfter := m, requests := [], posts := [], raised := none }
  | some t =>
      if t == "" then { msgAfter := m, requests := [], posts := [], raised := none }
      else
        let r := githubLoop http (countG t.data) t.data
        { msgAfter := { m with text := some (String.mk r.1) }
          requests := r.2.1
          posts := r.2.2.1
          raised := r.2.2.2 }

/- ------------------------------------------------ -/
/- inspect                                           -/
/- ------------------------------------------------ -/

/-- The prefix of the region before its **last** `'>'` (what the greedy
`.*` of `<@(.*)>` captures), `none` when the region has no `'>'`. -/
def lastGt : List Char → Option (List Char)
  | [] => none
  | c :: cs =>
      match lastGt cs with
      | some r => some (c :: r)
      | none => if c == '>' then some [] else none

/-- `re.search("<@(.*)>", text)`: at the leftmost `<@` whose newline-free
tail still holds a `'>'`, capture greedily up to the last such `'>'`. -/
def inspectCapture : List Char → Option (List Char)
  | '<' :: '@' :: rest =>
      (match lastGt (rest.takeWhile (fun c => !(c == '\n'))) with
       | some cap => some cap
       | none => inspectCapture ('@' :: rest))
  | _ :: cs => inspectCapture cs
  | [] => none

/-- Where `inspect` got the profile it prints: the `slack.users` row
(raw payload plus `join_date` ISO string it adds to the dict) or the
`USERS_INFO` chat-API fallback.  The `pprint.pformat` rendering of the
profile is presentation-only and not modelled. -/
inductive InspectSource
  | fromDb (raw : String) (joinDateIso : String)
  | fromApi (raw : String)
deriving DecidableEq

/-- The response `inspect` posts. -/
inductive InspectReply
  | profile (userId : String) (src : InspectSource)
  | unknownUser
deriving DecidableEq

/-- Observable outcome of `inspect`; `posted` carries the response
channel and its content. -/
structure InspectOut where
  msgAfter : Msg
  posted : Option (String × InspectReply)
  raised : Option PyErr
deriving DecidableEq

/-- `inspect(message, app)`.  `dbUser` is the `slack.users` row (raw,
join_date) for the mentioned id, `apiUserRaw` the `USERS_INFO` fallback
payload.  Acts only in the admin channel on non-empty text. -/
def inspect (dbUser : Option (String × String)) (apiUserRaw : String) (m : Msg) : InspectOut :=
  match m.text with
  | none => { msgAfter := m, posted := none, raised := none }
  | some t =>
      if m.channel == ADMIN_CHANNEL && !(t == "") then
        match inspectCapture t.data with
        | some cap =>
            { msgAfter := m
              posted := some (m.channel,
                InspectReply.profile (String.mk cap)
                  (match dbUser with
                   | some (raw, jd) => InspectSource.fromDb raw jd
                   | none => InspectSource.fromApi apiUserRaw))
              raised := none }
        | none =>
            { msgAfter := m, posted := some (m.channel, InspectReply.unknownUser), raised := none }
      else { msgAfter := m, posted := none, raised := none }

/- ------------------------------------------------ -/
/- Registry and dispatcher                           -/
/- ------------------------------------------------ -/

/-- The handler a rule is bound to. -/
inductive Handler
  | hello
  | tell
  | mention
  | save_in_database
  | channel_topic
  | github_repo_link
  | inspect
  | help_message
  | stock_quote
  | crypto_quote
deriving DecidableEq

/-- One registered rule: the semantics of its compiled pattern under
`re.search`, the mention / admin / subtype predicates of the registration
call, the bound handler, and the `wait=False` (fire-and-forget)
concurrency flag. -/
structure Rule where
  patMatch : String → Bool
  mentionRequired : Bool := false
  adminRequired : Bool := false
  subtypeEq : Option String := none
  handler : Handler
  fireAndForget : Bool := false

/-- Modelled from the spec: the sirbot plugin's predicate evaluation (the
router itself lives outside src).  The rule's pattern is searched against
`message.text` (absent or empty text never matches and never errors);
`MentionRequired` consumes the precomputed mention flag; `AdminRequired`
requires membership in the admin set; a rule without a subtype constraint
matches any subtype; all predicates are ANDed. -/
def ruleMatches (r : Rule) (iden : BotIdentity) (m : Msg) : Bool :=
  (match m.text with
   | none => false
   | some t => !(t == "") && r.patMatch t)
  && (!r.mentionRequired || m.mentionsBot)
  && (!r.adminRequired || iden.admins.contains m.user)
  && (match r.subtypeEq with
      | none => true
      | some s => m.subtype == some s)

/-- `plugin.on_message("hello", hello, flags=re.IGNORECASE, mention=True)`. -/
def rule_hello : Rule := { patMatch := patHello, mentionRequired := true, handler := Handler.hello }

/-- `plugin.on_message("^tell", tell, flags=re.IGNORECASE, mention=True, admin=True)`. -/
def rule_tell : Rule :=
  { patMatch := patTellRule, mentionRequired := true, adminRequired := true, handler := Handler.tell }

/-- `plugin.on_message(".*", mention, flags=re.IGNORECASE, mention=True)`. -/
def rule_mention : Rule := { patMatch := patAny, mentionRequired := true, handler := Handler.mention }

/-- `plugin.on_message(".*", save_in_database, wait=False)`. -/
def rule_save : Rule := { patMatch := patAny, handler := Handler.save_in_database, fireAndForget := true }

/-- `plugin.on_message(".*", channel_topic, subtype="channel_topic")`. -/
def rule_channel_topic : Rule :=
  { patMatch := patAny, subtypeEq := some "channel_topic", handler := Handler.channel_topic }

/-- `plugin.on_message("g#", github_repo_link)`. -/
def rule_github : Rule := { patMatch := patGithub, handler := Handler.github_repo_link }

/-- `plugin.on_message("^inspect", inspect, flags=re.IGNORECASE, mention=True, admin=True)`. -/
def rule_inspect : Rule :=
  { patMatch := patInspectRule, mentionRequired := true, adminRequired := true, handler := Handler.inspect }

/-- `plugin.on_message("^help", help_message, flags=re.IGNORECASE, mention=True)`. -/
def rule_help : Rule := { patMatch := patHelpRule, mentionRequired := true, handler := Handler.help_message }

/-- `plugin.on_message(r"s\$[A-Z\.]{1,5}", stock_quote, wait=False)`. -/
def rule_stock : Rule := { patMatch := patStock, handler := Handler.stock_quote, fireAndForget := true }

/-- `plugin.on_message(r"c\$[A-Z\.]{1,5}", crypto_quote, wait=False)`. -/
def rule_crypto : Rule := { patMatch := patCrypto, handler := Handler.crypto_quote, fireAndForget := true }

/-- The rule list registered by `create_endpoints(plugin)`, in
registration order. -/
def create_endpoints : List Rule :=
  [rule_hello, rule_tell, rule_mention, rule_save, rule_channel_topic,
   rule_github, rule_inspect, rule_help, rule_stock, rule_crypto]

/-- Modelled from the spec: the dispatcher evaluates every rule in
registration order and fires **all** whose predicates match; no match
stops iteration over later rules. -/
def dispatch (rules : List Rule) (iden : BotIdentity) (m : Msg) : List Rule :=
  rules.filter (fun r => ruleMatches r iden m)

/- ------------------------------------------------ -/
/- Concrete scenario inputs                          -/
/- ------------------------------------------------ -/

/-- The spec's stock scenario message `{text: "s$AAPL", user: "U1"}`. -/
def msgAAPL : Msg := { text := some "s$AAPL", user := "U1", channel := "C1", ts := "1.0" }

/-- A crypto-quote message `c$BTC`. -/
def msgBTC : Msg := { text := some "c$BTC", user := "U1", channel := "C1", ts := "2.0" }

/-- The spec's mention scenario message `{text: "<@BOTID> hello", mentionsBot: true}`. -/
def msgHello : Msg :=
  { text := some "<@B0> hello", user := "U1", channel := "C1", ts := "3.0", mentionsBot := true }

/-- A fixture identity for the concrete scenarios. -/
def idenFix : BotIdentity := { botUserId := "B0", admins := [] }

/- ------------------------------------------------ -/
/- Helper lemmas                                     -/
/- ------------------------------------------------ -/

lemma cryptoLookup_symbol_eq (S : String) (L : List CryptoPair) (q : CryptoPair)
    (h : cryptoLookup S L = some q) : q.symbol = S ++ "USDT" := by
  induction L with
  | nil => simp [cryptoLookup] at h
  | cons c rest ih =>
      by_cases hc : (c.symbol == S ++ "USDT") = true
      · rw [cryptoLookup, if_pos hc] at h
        cases h
        exact beq_iff_eq.mp hc
      · rw [cryptoLookup, if_neg (by simp [hc])] at h
        exact ih h

lemma cryptoLookup_eq_none_iff (S : String) (L : List CryptoPair) :
    cryptoLookup S L = none ↔ ∀ p ∈ L, p.symbol ≠ S ++ "USDT" := by
  induction L with
  | nil => simp [cryptoLookup]
  | cons c rest ih =>
      by_cases hc : (c.symbol == S ++ "USDT") = true
      · rw [cryptoLookup, if_pos hc]
        simp only [beq_iff_eq] at hc
        simp [hc]
      · rw [cryptoLookup, if_neg (by simp [hc])]
        simp only [beq_iff_eq] at hc
        simp [ih, hc]

lemma cryptoLookup_first (S : String) (L1 L2 : List CryptoPair) (q : CryptoPair)
    (h1 : ∀ p ∈ L1, p.symbol ≠ S ++ "USDT") (h2 : q.symbol = S ++ "USDT") :
    cryptoLookup S (L1 ++ q :: L2) = some q := by
  induction L1 with
  | nil => simp [cryptoLookup, h2]
  | cons c rest ih =>
      have hc : (c.symbol == S ++ "USDT") = false :=
        beq_eq_false_iff_ne.mpr (h1 c (by simp))
      rw [List.cons_append, cryptoLookup, if_neg (by simp [hc])]
      exact ih (fun p hp => h1 p (by simp [hp]))

lemma text_gate_false (r : Rule) (iden : BotIdentity) (m : Msg)
    (h : m.text = none ∨ m.text = some "") : ruleMatches r iden m = false := by
  unfold ruleMatches
  rcases h with h | h <;> rw [h] <;> simp

/- ------------------------------------------------ -/
/- Claim theorems                                    -/
/- ------------------------------------------------ -/

/-- C1: contrary to the claim, when the crypto-listing call fails with a
`ClientResponseError` the `crypto_quote` handler logs the error but does
**not** complete normally: the subsequent `if quote is not None:` reads the
local `quote` that was never assigned (its initialisation sits after the
failing call inside the `try`), so an `UnboundLocalError` escapes the
handler body and nothing is posted.  Evaluated at the failing input
`text = "c$BTC"` with the collaborator failing with status 502. -/
theorem crypto_quote_unbound_local_on_client_error :
    (crypto_quote msgBTC (Except.error { status := 502 })).raised =
      some (PyErr.unboundLocal "quote") ∧
    (crypto_quote msgBTC (Except.error { status := 502 })).posted = none ∧
    LogEvent.error "Error retrieving crypto quotes" ∈
      (crypto_quote msgBTC (Except.error { status := 502 })).logs := by
  decide

/-- C2 (counterexample): a non-empty timestamp does NOT guarantee exactly
one stored row on re-delivery.  For ts `"x"` the leading dot-separated
component is not a decimal integer, so `int("x")` raises `ValueError`;
for ts `"99999999999999999999.0"` it parses but lies far outside
`datetime.fromtimestamp`'s representable window, so the conversion raises
its range error.  The `except UniqueViolationError` catches neither, so
both deliveries abort before inserting and zero rows are stored (shown
here for a UTC clock). -/
theorem save_in_database_nonnumeric_ts_counterexample :
    (save_in_database true 0
        (save_in_database true 0 [] { text := some "hi", user := "U1", channel := "C1", ts := "x" }).db
        { text := some "hi", user := "U1", channel := "C1", ts := "x" }).db = [] ∧
    (save_in_database true 0 [] { text := some "hi", user := "U1", channel := "C1", ts := "x" }).raised =
      some PyErr.valueError ∧
    (save_in_database true 0 []
        { text := some "hi", user := "U1", channel := "C1", ts := "99999999999999999999.0" }).db = [] ∧
    (save_in_database true 0 []
        { text := some "hi", user := "U1", channel := "C1", ts := "99999999999999999999.0" }).raised =
      some PyErr.overflowError := by
  decide

/-- C2 (amended): for every message whose non-empty timestamp has a
decimal-integer leading component that `datetime.fromtimestamp` accepts
on the running clock (shifted epoch seconds within datetime's year 1–9999
window), with the persistence plugin configured, re-delivery of an
identical identifier leaves exactly one stored row: the first call
inserts it without raising, the second call swallows the uniqueness
violation (no re-raise, no retry, table unchanged) and logs only
debug-level events. -/
theorem save_in_database_idempotent_for_numeric_ts :
    ∀ (tz : Int) (db : List MsgRow) (m : Msg) (n : Int),
      m.ts ≠ "" →
      pyInt (intPart m.ts) = some n →
      minFromTs ≤ n + tz →
      n + tz ≤ maxFromTs →
      (∀ r ∈ db, r.id ≠ m.ts) →
      ((save_in_database true tz db m).db.countP (fun r => r.id == m.ts) = 1) ∧
      (save_in_database true tz db m).raised = none ∧
      (save_in_database true tz (save_in_database true tz db m).db m).db =
        (save_in_database true tz db m).db ∧
      (save_in_database true tz (save_in_database true tz db m).db m).raised = none ∧
      (save_in_database true tz (save_in_database true tz db m).db m).logs =
        [LogEvent.debug ("Saving message \"" ++ m.ts ++ "\" to database."),
         LogEvent.debug ("Message \"" ++ m.ts ++ "\" already in database.")] := by
  intro tz db m n hts hint hlo hhi hdb
  have hbeq : (m.ts == "") = false := beq_eq_false_iff_ne.mpr hts
  have hany : db.any (fun r => r.id == m.ts) = false := by
    rw [List.any_eq_false]
    intro r hr
    simp [beq_eq_false_iff_ne.mpr (hdb r hr)]
  have e1 : save_in_database true tz db m =
      { msgAfter := m
        db := db ++ [{ id := m.ts, text := m.text, user := m.user, channel := m.channel, time := n }]
        logs := [LogEvent.debug ("Saving message \"" ++ m.ts ++ "\" to database.")]
        raised := none } := by
    unfold save_in_database
    rw [hbeq, hint]
    simp [hlo, hhi, hany]
  have hany2 : (db ++ [({ id := m.ts, text := m.text, user := m.user, channel := m.channel, time := n } : MsgRow)]).any (fun r => r.id == m.ts) = true := by
    simp [List.any_append]
  have e2 : save_in_database true tz (db ++ [({ id := m.ts, text := m.text, user := m.user, channel := m.channel, time := n } : MsgRow)]) m =
      { msgAfter := m
        db := db ++ [({ id := m.ts, text := m.text, user := m.user, channel := m.channel, time := n } : MsgRow)]
        logs := [LogEvent.debug ("Saving message \"" ++ m.ts ++ "\" to database."),
                 LogEvent.debug ("Message \"" ++ m.ts ++ "\" already in database.")]
        raised := none } := by
    unfold save_in_database
    rw [hbeq, hint]
    simp [hlo, hhi, hany2]
  have hcount : db.countP (fun r => r.id == m.ts) = 0 := by
    rw [List.countP_eq_zero]
    intro r hr
    simp [beq_eq_false_iff_ne.mpr (hdb r hr)]
  rw [e1]
  refine ⟨?_, rfl, ?_, ?_, ?_⟩
  · simp [List.countP_append, hcount]
  · rw [e2]
  · rw [e2]
  · rw [e2]

/-- C2 witness: concrete run with a realistic Slack timestamp on a UTC
clock. -/
theorem save_in_database_idempotent_for_numeric_ts_witness :
    (save_in_database true 0 []
        { text := some "hi", user := "U1", channel := "C1", ts := "1660000000.123456" }).raised =
      none := by
  have h := save_in_database_idempotent_for_numeric_ts 0 []
    { text := some "hi", user := "U1", channel := "C1", ts := "1660000000.123456" }
    1660000000 (by decide) (by decide) (by decide) (by decide) (by simp)
  exact h.2.1

/-- C3 (counterexample): `github_repo_link` does not leave the incoming
message unchanged: on `text = "g#repo x"` it reassigns `message["text"]`
while consuming the `g#` occurrence, so the message differs afterwards. -/
theorem github_repo_link_mutates_message :
    (github_repo_link (fun _ => 200)
        { text := some "g#repo x", user := "U1", channel := "C1", ts := "1.0" }).msgAfter ≠
      ({ text := some "g#repo x", user := "U1", channel := "C1", ts := "1.0" } : Msg) := by
  decide

/-- C3 (amended): every handler except `github_repo_link` leaves the
incoming message unchanged, only deriving a separate response from it;
`github_repo_link` alone reassigns the received message's `text` field as
it consumes `g#` occurrences. -/
theorem handlers_preserve_incoming_message :
    ∀ (m : Msg) (iden : BotIdentity) (cres : Except ClientResponseError (List CryptoPair))
      (bres : Except ClientResponseError StockQuote) (lres : Except ClientResponseError String)
      (rres : Except String Unit) (pg : Bool) (tz : Int) (db : List MsgRow)
      (row : Option ChannelRow) (hf : List (String × String))
      (du : Option (String × String)) (au : String),
      (crypto_quote m cres).msgAfter = m ∧
      (stock_quote m bres lres).msgAfter = m ∧
      (hello m).msgAfter = m ∧
      (help_message hf m).msgAfter = m ∧
      (tell m).msgAfter = m ∧
      (mention m iden rres).msgAfter = m ∧
      (save_in_database pg tz db m).msgAfter = m ∧
      (channel_topic m iden row).msgAfter = m ∧
      (inspect du au m).msgAfter = m := by
  intro m iden cres bres lres rres pg tz db row hf du au
  refine ⟨?_, ?_, rfl, rfl, ?_, ?_, ?_, ?_, ?_⟩
  · unfold crypto_quote
    repeat' split
    all_goals rfl
  · unfold stock_quote
    repeat' split
    all_goals rfl
  · unfold tell
    repeat' split
    all_goals rfl
  · unfold mention
    repeat' split
    all_goals rfl
  · unfold save_in_database
    repeat' split
    all_goals rfl
  · unfold channel_topic
    repeat' split
    all_goals rfl
  · unfold inspect
    repeat' split
    all_goals rfl

/-- C4: for the message `{text: "s$AAPL", user: "U1"}` exactly one
dispatched rule is bound to `stock_quote`; when the quote API fails with
status 404 the posted text is exactly "The symbol \x60AAPL\x60 could not
be found.", and any other quote-API failure (book or logo call, any
non-404 status) posts "Unable to retrieve quotes right now." instead. -/
theorem stock_quote_aapl_scenario :
    ((dispatch create_endpoints idenFix msgAAPL).countP
        (fun r => r.handler == Handler.stock_quote)) = 1 ∧
    (∀ (e : ClientResponseError) (lres : Except ClientResponseError String),
        e.status = 404 →
        (stock_quote msgAAPL (Except.error e) lres).posted =
          some { channel := "C1", text := some "The symbol `AAPL` could not be found."
                 attachmentOf := none }) ∧
    (∀ (e : ClientResponseError) (lres : Except ClientResponseError String),
        e.status ≠ 404 →
        (stock_quote msgAAPL (Except.error e) lres).posted =
          some { channel := "C1", text := some "Unable to retrieve quotes right now."
                 attachmentOf := none }) ∧
    (∀ (q : StockQuote) (e : ClientResponseError),
        e.status = 404 →
        (stock_quote msgAAPL (Except.ok q) (Except.error e)).posted =
          some { channel := "C1", text := some "The symbol `AAPL` could not be found."
                 attachmentOf := none }) ∧
    (∀ (q : StockQuote) (e : ClientResponseError),
        e.status ≠ 404 →
        (stock_quote msgAAPL (Except.ok q) (Except.error e)).posted =
          some { channel := "C1", text := some "Unable to retrieve quotes right now."
                 attachmentOf := none }) := by
  have hS : stockSearch ((msgAAPL.text.getD "").data) = some "AAPL" := by decide
  refine ⟨by decide, ?_, ?_, ?_, ?_⟩
  · intro e lres h
    have hb : (e.status == 404) = true := beq_iff_eq.mpr h
    unfold stock_quote
    rw [hS]
    simp [hb, msgAAPL]
  · intro e lres h
    have hb : (e.status == 404) = false := beq_eq_false_iff_ne.mpr h
    unfold stock_quote
    rw [hS]
    simp [hb, msgAAPL]
  · intro q e h
    have hb : (e.status == 404) = true := beq_iff_eq.mpr h
    unfold stock_quote
    rw [hS]
    simp [hb, msgAAPL]
  · intro q e h
    have hb : (e.status == 404) = false := beq_eq_false_iff_ne.mpr h
    unfold stock_quote
    rw [hS]
    simp [hb, msgAAPL]

/-- C4 witness: the 404 branch and a 500 branch, concretely. -/
theorem stock_quote_aapl_scenario_witness :
    (stock_quote msgAAPL (Except.error { status := 404 }) (Except.ok "logo")).posted =
      some { channel := "C1", text := some "The symbol `AAPL` could not be found."
             attachmentOf := none } ∧
    (stock_quote msgAAPL (Except.error { status := 500 }) (Except.ok "logo")).posted =
      some { channel := "C1", text := some "Unable to retrieve quotes right now."
             attachmentOf := none } :=
  ⟨stock_quote_aapl_scenario.2.1 { status := 404 } (Except.ok "logo") rfl,
   stock_quote_aapl_scenario.2.2.1 { status := 500 } (Except.ok "logo") (by decide)⟩

/-- C5: a message with absent or empty text fires no pattern-based rule
(the dispatcher's pattern predicate treats it as a non-match), and the
`stock_quote` and `crypto_quote` handlers, given such a message, emit no
log, post nothing and raise nothing regardless of the collaborator
results (so in particular their results do not depend on them). -/
theorem empty_text_fires_nothing :
    ∀ (m : Msg) (iden : BotIdentity),
      m.text = none ∨ m.text = some "" →
      dispatch create_endpoints iden m = [] ∧
      (∀ cres, crypto_quote m cres =
        { msgAfter := m, logs := [], posted := none, raised := none }) ∧
      (∀ bres lres, stock_quote m bres lres =
        { msgAfter := m, logs := [], posted := none, raised := none }) := by
  intro m iden h
  have hd : ((m.text.getD "").data) = ([] : List Char) := by
    rcases h with h | h <;> rw [h] <;> rfl
  refine ⟨?_, ?_, ?_⟩
  · rw [dispatch, List.filter_eq_nil_iff]
    intro r hr
    simp [text_gate_false r iden m h]
  · intro cres
    unfold crypto_quote
    rw [hd]
    rfl
  · intro bres lres
    unfold stock_quote
    rw [hd]
    rfl

/-- C5 witness: the all-defaults message (no text) fires nothing. -/
theorem empty_text_fires_nothing_witness :
    dispatch create_endpoints idenFix {} = [] ∧
    crypto_quote {} (Except.ok []) =
      { msgAfter := {}, logs := [], posted := none, raised := none } := by
  have h := empty_text_fires_nothing {} idenFix (Or.inl rfl)
  exact ⟨h.1, h.2.1 (Except.ok [])⟩

/-- C6: `crypto_quote` resolves by exact suffixed symbol match: the loop
returns the first listed pair whose symbol is the requested symbol
followed by "USDT" (and only such a pair), the posted attachment is
rendered from that pair, and when no listed pair carries that exact
suffixed symbol the posted text is exactly
"The crypto symbol \x60S\x60 could not be found". -/
theorem crypto_quote_exact_suffix_lookup :
    ∀ (m : Msg) (L : List CryptoPair) (S : String),
      stockSearch ((m.text.getD "").data) = some S →
      (∀ q, cryptoLookup S L = some q →
          q.symbol = S ++ "USDT" ∧
          (crypto_quote m (Except.ok L)).posted =
            some { channel := m.channel, text := none, attachmentOf := some q }) ∧
      ((∀ p ∈ L, p.symbol ≠ S ++ "USDT") →
          (crypto_quote m (Except.ok L)).posted =
            some { channel := m.channel
                   text := some ("The crypto symbol `" ++ S ++ "` could not be found")
                   attachmentOf := none }) ∧
      (∀ (L1 L2 : List CryptoPair) (q : CryptoPair),
          L = L1 ++ q :: L2 → (∀ p ∈ L1, p.symbol ≠ S ++ "USDT") → q.symbol = S ++ "USDT" →
          cryptoLookup S L = some q) := by
  intro m L S hS
  refine ⟨?_, ?_, ?_⟩
  · intro q hq
    refine ⟨cryptoLookup_symbol_eq S L q hq, ?_⟩
    simp only [crypto_quote, hS, hq]
  · intro hnone
    have h0 : cryptoLookup S L = none := (cryptoLookup_eq_none_iff S L).mpr hnone
    simp only [crypto_quote, hS, h0]
  · intro L1 L2 q hL h1 h2
    subst hL
    exact cryptoLookup_first S L1 L2 q h1 h2

/-- C6 witness: request `BTC` resolves against listed symbol `BTCUSDT`. -/
theorem crypto_quote_exact_suffix_lookup_witness :
    (crypto_quote msgBTC (Except.ok [{ symbol := "BTCUSDT" }])).posted =
      some { channel := "C1", text := none, attachmentOf := some { symbol := "BTCUSDT" } } := by
  have h := crypto_quote_exact_suffix_lookup msgBTC [{ symbol := "BTCUSDT" }] "BTC" (by decide)
  exact (h.1 { symbol := "BTCUSDT" } (by decide)).2

/-- C7: a channel-topic change by a user who is neither an admin nor the
bot produces exactly one admin-channel notification whose attachment
fields carry the previous topic (or "Original topic not found" when no
channel row existed) and the new topic, with the Validate/Revert action
block present if and only if a prior channel row existed; nothing is
raised. -/
theorem channel_topic_notifies_admin_channel :
    ∀ (m : Msg) (iden : BotIdentity) (row : Option ChannelRow) (t : String),
      m.topic = some t →
      iden.admins.contains m.user = false →
      m.user ≠ iden.botUserId →
      (channel_topic m iden row).raised = none ∧
      (channel_topic m iden row).posted = some
        { channel := ADMIN_CHANNEL
          attachment :=
            { fallback := "Channel topic changed notice: old topic"
              title := "<@" ++ m.user ++ "> changed <#" ++ m.channel ++ "> topic."
              fields := [{ title := "Previous topic", value := oldTopicOf row },
                         { title := "New topic", value := t }]
              hasActions := row.isSome
              revertPayload := if row.isSome then some (m.channel, oldTopicOf row) else none } } := by
  intro m iden row t ht hadm hbot
  have hb : (m.user == iden.botUserId) = false := beq_eq_false_iff_ne.mpr hbot
  unfold channel_topic
  rw [hadm, hb, ht]
  exact ⟨rfl, rfl⟩

/-- C7 witness: a concrete topic change with a prior channel row. -/
theorem channel_topic_notifies_admin_channel_witness :
    (channel_topic { user := "U1", channel := "C1", topic := some "new topic" } idenFix
        (some { topicValue := "old topic" })).posted = some
      { channel := ADMIN_CHANNEL
        attachment :=
          { fallback := "Channel topic changed notice: old topic"
            title := "<@U1> changed <#C1> topic."
            fields := [{ title := "Previous topic", value := "old topic" },
                       { title := "New topic", value := "new topic" }]
            hasActions := true
            revertPayload := some ("C1", "old topic") } } := by
  have h := channel_topic_notifies_admin_channel
    { user := "U1", channel := "C1", topic := some "new topic" } idenFix
    (some { topicValue := "old topic" }) "new topic" rfl (by decide) (by decide)
  exact h.2

/-- C8: the dispatcher fires every matching rule (membership in the
dispatched list follows from matching alone, so no earlier match stops
iteration), and in the concrete mention scenario the message
"<@B0> hello" with the mention flag set fires both the `hello` rule and
the generic `mention` reaction rule. -/
theorem all_matching_rules_fire :
    (∀ (iden : BotIdentity) (m : Msg) (r : Rule),
        r ∈ create_endpoints → ruleMatches r iden m = true →
        r ∈ dispatch create_endpoints iden m) ∧
    ((dispatch create_endpoints idenFix msgHello).map Rule.handler).contains Handler.hello = true ∧
    ((dispatch create_endpoints idenFix msgHello).map Rule.handler).contains Handler.mention = true := by
  refine ⟨?_, by decide, by decide⟩
  intro iden m r hmem hmatch
  exact List.mem_filter.mpr ⟨hmem, hmatch⟩

/-- C8 witness: the hello rule matches the scenario message and is
therefore among the dispatched rules. -/
theorem all_matching_rules_fire_witness :
    rule_hello ∈ dispatch create_endpoints idenFix msgHello :=
  all_matching_rules_fire.1 idenFix msgHello rule_hello
    (by rw [create_endpoints]; exact List.mem_cons_self _ _) (by decide)

/-- C9: when the `REACTIONS_ADD` call of `mention` fails (for a message
not authored by the bot, so the call is actually made), the failure is
absorbed if and only if the chat API signalled `already_reacted`; every
other error code is re-raised as the `SlackAPIError` out of the handler
body. -/
theorem mention_absorbs_only_already_reacted :
    ∀ (m : Msg) (iden : BotIdentity) (code : String),
      m.user ≠ iden.botUserId →
      ((mention m iden (Except.error code)).raised = none ↔ code = "already_reacted") ∧
      (mention m iden (Except.error code)).reactionCall =
        some { name := "sirbot", channel := m.channel, timestamp := m.ts } ∧
      (code ≠ "already_reacted" →
        (mention m iden (Except.error code)).raised = some (PyErr.slackAPI code)) := by
  intro m iden code hne
  have hb : (m.user == iden.botUserId) = false := beq_eq_false_iff_ne.mpr hne
  unfold mention
  rw [hb]
  by_cases hc : code = "already_reacted"
  · have hbc : (code == "already_reacted") = true := beq_iff_eq.mpr hc
    simp [hbc, hc]
  · have hbc : (code == "already_reacted") = false := beq_eq_false_iff_ne.mpr hc
    simp [hbc, hc]

/-- C9 witness: `already_reacted` is absorbed for a non-bot author. -/
theorem mention_absorbs_only_already_reacted_witness :
    (mention { user := "U1", channel := "C1", ts := "5.0" } idenFix
        (Except.error "already_reacted")).raised = none :=
  ((mention_absorbs_only_already_reacted { user := "U1", channel := "C1", ts := "5.0" }
      idenFix "already_reacted" (by decide)).1).mpr rfl

/-- C10: for a message authored by the bot itself, `mention` makes no
reaction API call at all and raises nothing, whatever the (never
consulted) chat-API outcome would have been. -/
theorem mention_skips_own_messages :
    ∀ (m : Msg) (iden : BotIdentity) (res : Except String Unit),
      m.user = iden.botUserId →
      (mention m iden res).reactionCall = none ∧ (mention m iden res).raised = none := by
  intro m iden res h
  unfold mention
  simp [h]

/-- C10 witness: the bot's own message triggers no reaction call. -/
theorem mention_skips_own_messages_witness :
    (mention { user := "B0", channel := "C1", ts := "6.0" } idenFix (Except.ok ())).reactionCall =
      none :=
  (mention_skips_own_messages { user := "B0", channel := "C1", ts := "6.0" } idenFix
    (Except.ok ()) rfl).1

end Sirbot
